import Mathlib

/-
  Verification development for the task-switching and signal-delivery core
  of the Tilck kernel (src/kernel/signal.c, the arch-specific scheduling /
  fault-bridge translation unit, and src/include/tilck/common/utils.h).

  The C code is shallowly embedded: machine words (ulong, 64-bit in this
  build) become Nat values kept below 2^64 by hypothesis where it matters;
  fixed-size kernel arrays (the pending-signal bitmask and the blocked mask,
  of compile-time length K_SIGACTION_MASK_WORDS) become lists of words whose
  length plays the role of the array bound, exactly as the C loops iterate
  from 0 to the bound; user-memory copies, which can fault, become Option
  values (none models a fault reported by copy_from_user/copy_to_user).
-/

/-- NBITS: bits per machine word (ulong). This build is 64-bit (the
pending-word scan resolves to get_first_set_bit_index64). -/
def NBITS : Nat := 64

/-- Number of supported signals, as in the Linux-compatible ABI headers. -/
def NSIG : Nat := 64

-- Signal numbers (Linux generic ABI, used by the kernel headers).
def SIGHUP : Nat := 1
def SIGINT : Nat := 2
def SIGQUIT : Nat := 3
def SIGILL : Nat := 4
def SIGTRAP : Nat := 5
def SIGABRT : Nat := 6
def SIGBUS : Nat := 7
def SIGFPE : Nat := 8
def SIGKILL : Nat := 9
def SIGUSR1 : Nat := 10
def SIGSEGV : Nat := 11
def SIGUSR2 : Nat := 12
def SIGPIPE : Nat := 13
def SIGALRM : Nat := 14
def SIGTERM : Nat := 15
def SIGCHLD : Nat := 17
def SIGCONT : Nat := 18
def SIGSTOP : Nat := 19
def SIGTSTP : Nat := 20
def SIGTTIN : Nat := 21
def SIGTTOU : Nat := 22
def SIGURG : Nat := 23
def SIGXCPU : Nat := 24
def SIGXFSZ : Nat := 25
def SIGVTALRM : Nat := 26
def SIGPROF : Nat := 27
def SIGPOLL : Nat := 29
def SIGSYS : Nat := 31

-- Error codes (tilck/kernel/errno.h mirrors Linux).
def ESRCH : Int := 3
def EFAULT : Int := 14
def EINVAL : Int := 22

-- sigprocmask modes (Linux generic ABI).
def SIG_BLOCK : Nat := 0
def SIG_UNBLOCK : Nat := 1
def SIG_SETMASK : Nat := 2

-- sigaction flags (Linux generic ABI values).
def SA_NOCLDSTOP : Nat := 0x00000001
def SA_NOCLDWAIT : Nat := 0x00000002
def SA_SIGINFO : Nat := 0x00000004
def SA_ONSTACK : Nat := 0x08000000
def SA_RESTART : Nat := 0x10000000
def SA_NODEFER : Nat := 0x40000000
def SA_RESETHAND : Nat := 0x80000000

/-- Loop body of get_first_set_bit_index64 (utils.h): scan bit indices
upward from i; fuel counts the remaining iterations, so the initial call
uses fuel = 64 and the function returns 64 (one past the last index) when
no bit is set, exactly as the C for-loop falls through. -/
def fsbAux (num : Nat) (i : Nat) : Nat → Nat
  | 0 => i
  | fuel + 1 => if num.testBit i then i else fsbAux num (i + 1) fuel

/-- get_first_set_bit_index64 (utils.h lines 94-104): index of the lowest
set bit of a 64-bit word (the C code asserts num != 0). -/
def get_first_set_bit_index64 (num : Nat) : Nat :=
  fsbAux num 0 64

/-- add_pending_sig (signal.c lines 20-32). The mask list has length
K_SIGACTION_MASK_WORDS; signal numbers whose slot falls beyond it are
silently ignored. -/
def add_pending_sig (mask : List Nat) (signum : Nat) : List Nat :=
  let s := signum - 1
  let slot := s / NBITS
  let idx := s % NBITS
  if slot ≥ mask.length then
    mask
  else
    mask.set slot (mask.getD slot 0 ||| (1 <<< idx))

/-- del_pending_sig (signal.c lines 34-46). -/
def del_pending_sig (mask : List Nat) (signum : Nat) : List Nat :=
  let s := signum - 1
  let slot := s / NBITS
  let idx := s % NBITS
  if slot ≥ mask.length then
    mask
  else
    mask.set slot (Nat.ldiff (mask.getD slot 0) (1 <<< idx))

/-- is_pending_sig (signal.c lines 48-60). -/
def is_pending_sig (mask : List Nat) (signum : Nat) : Bool :=
  let s := signum - 1
  let slot := s / NBITS
  let idx := s % NBITS
  if slot ≥ mask.length then
    false
  else
    (mask.getD slot 0).testBit idx

/-- Loop of get_first_pending_sig (signal.c lines 62-76): scan the words in
ascending order; i is the word index of the list head in the full mask. -/
def getFirstPendingAux : List Nat → Nat → Int
  | [], _ => -1
  | w :: ws, i =>
      if w ≠ 0 then
        Int.ofNat (i * NBITS + get_first_set_bit_index64 w + 1)
      else
        getFirstPendingAux ws (i + 1)

/-- get_first_pending_sig (signal.c lines 62-76): lowest pending signal
number, or -1 when no bit is set. -/
def get_first_pending_sig (mask : List Nat) : Int :=
  getFirstPendingAux mask 0

/-- Signal disposition held in process->sa_handlers: SIG_DFL (0), SIG_IGN
(1), or a user handler address. -/
inductive Handler where
  | dfl : Handler
  | ign : Handler
  | custom : Nat → Handler
deriving DecidableEq, Repr

/-- KTask states (enum task_state). -/
inductive TaskState where
  | runnable : TaskState
  | running : TaskState
  | sleeping : TaskState
  | stopped_st : TaskState
  | zombie : TaskState
deriving DecidableEq, Repr

/-- Kinds of wait object a SLEEPING task can block on (wobj.type); the
dispatch code only distinguishes kmutex and sem from everything else. -/
inductive WobjType where
  | wobjNone : WobjType
  | wobjKmutex : WobjType
  | wobjSem : WobjType
  | wobjKcond : WobjType
  | wobjTimer : WobjType
  | wobjTask : WobjType
deriving DecidableEq, Repr

/-- Wait status recorded by the stop/continue actions (STOPCODE(sig) /
CONTINUED in the C code). -/
inductive WStatus where
  | wsNone : WStatus
  | stopcode : Nat → WStatus
  | continued : WStatus
deriving DecidableEq, Repr

/-- struct process: the fields the signal core reads or writes. The
disposition table sa_handlers is indexed by signum-1; the blocked mask
sa_mask is a list of K_SIGACTION_MASK_WORDS words. -/
structure Process where
  pid : Nat
  sa_handlers : List Handler
  sa_mask : List Nat
deriving DecidableEq, Repr

/-- struct task: the fields the signal core reads or writes. kernelThread
models is_kernel_thread(ti) (task owned by the kernel process). -/
structure KTask where
  tid : Nat
  pi : Process
  state : TaskState
  pending_signums : List Nat
  wobjType : WobjType
  vfork_stopped : Bool
  stopped : Bool
  kernelThread : Bool
  wstatus : WStatus
deriving DecidableEq, Repr

/-- Observable outcome of dispatching one signal to one task: the updated
task plus the side effects the C actions perform (the init-ignore printk,
the terminate_process call that never returns when the target is current,
the trace hook, the wake_up_tasks_waiting_on events, the yield). -/
structure DispatchResult where
  task : KTask
  warnInitIgnore : Bool := false
  terminatesCurrent : Bool := false
  traceDelivered : Bool := false
  wakeStopped : Bool := false
  wakeContinued : Bool := false
  yielded : Bool := false
deriving DecidableEq, Repr

/-- A dispatch that returns without touching the task or emitting any
side effect. -/
def noEffect (ti : KTask) : DispatchResult := { task := ti }

/-- action_terminate (signal.c lines 96-142). isCurr models
ti == get_curr_task(). When the target is current the function enables
preemption and calls terminate_process, never returning; otherwise it marks
the signal pending and, unless the task is vfork-stopped, wakes it when it
sleeps on anything but a mutex or a semaphore and clears its stop flag. -/
def action_terminate (isCurr : Bool) (ti : KTask) (signum : Nat) :
    DispatchResult :=
  if isCurr then
    { task := ti, terminatesCurrent := true }
  else
    let t1 : KTask :=
      { ti with pending_signums := add_pending_sig ti.pending_signums signum }
    if t1.vfork_stopped = false then
      let t2 : KTask :=
        if t1.state = TaskState.sleeping ∧
           t1.wobjType ≠ WobjType.wobjKmutex ∧
           t1.wobjType ≠ WobjType.wobjSem then
          { t1 with state := TaskState.runnable }
        else
          t1
      { task := { t2 with stopped := false } }
    else
      { task := t1 }

/-- action_ignore (signal.c lines 144-152): no state change; warn when the
target is the init task (tid 1). -/
def action_ignore (ti : KTask) (_signum : Nat) : DispatchResult :=
  { task := ti, warnInitIgnore := ti.tid = 1 }

/-- action_stop (signal.c lines 154-166). -/
def action_stop (isCurr : Bool) (ti : KTask) (signum : Nat) :
    DispatchResult :=
  { task := { ti with stopped := true, wstatus := WStatus.stopcode signum },
    traceDelivered := true,
    wakeStopped := true,
    yielded := isCurr }

/-- action_continue (signal.c lines 168-179). -/
def action_continue (ti : KTask) (_signum : Nat) : DispatchResult :=
  if ti.vfork_stopped then
    { task := ti }
  else
    { task := { ti with stopped := false, wstatus := WStatus.continued },
      traceDelivered := true,
      wakeContinued := true }

/-- The four default actions, standing for the function pointers stored in
signal_default_actions. -/
inductive ActionKind where
  | terminate : ActionKind
  | ignoreAct : ActionKind
  | stopAct : ActionKind
  | contAct : ActionKind
deriving DecidableEq, Repr

/-- signal_default_actions (signal.c lines 181-215): the designated
initializer array; entries not listed are NULL (none). -/
def signal_default_actions (signum : Nat) : Option ActionKind :=
  if signum ∈ [SIGHUP, SIGINT, SIGQUIT, SIGILL, SIGABRT, SIGFPE, SIGKILL,
               SIGSEGV, SIGPIPE, SIGALRM, SIGTERM, SIGUSR1, SIGUSR2,
               SIGBUS, SIGPOLL, SIGPROF, SIGSYS, SIGTRAP, SIGVTALRM,
               SIGXCPU, SIGXFSZ] then
    some ActionKind.terminate
  else if signum ∈ [SIGCHLD, SIGURG] then
    some ActionKind.ignoreAct
  else if signum = SIGCONT then
    some ActionKind.contAct
  else if signum ∈ [SIGSTOP, SIGTSTP, SIGTTIN, SIGTTOU] then
    some ActionKind.stopAct
  else
    none

/-- do_send_signal (signal.c lines 217-260): signal 0 is a probe and does
nothing; an explicit SIG_IGN disposition runs action_ignore; any other
non-default handler returns immediately (the DIRTY HACK comment: custom
handlers are treated as SIG_IGN); a default disposition dispatches through
signal_default_actions, with NULL entries falling back to
action_terminate. -/
def do_send_signal (isCurr : Bool) (ti : KTask) (signum : Nat) :
    DispatchResult :=
  if signum = 0 then
    noEffect ti
  else
    match ti.pi.sa_handlers.getD (signum - 1) Handler.dfl with
    | Handler.ign => action_ignore ti signum
    | Handler.custom _ => noEffect ti
    | Handler.dfl =>
        match (signal_default_actions signum).getD ActionKind.terminate with
        | ActionKind.terminate => action_terminate isCurr ti signum
        | ActionKind.ignoreAct => action_ignore ti signum
        | ActionKind.stopAct => action_stop isCurr ti signum
        | ActionKind.contAct => action_continue ti signum

/-- Result of send_signal2: the return code and whether do_send_signal was
actually invoked (dres is its outcome then). -/
structure SendResult where
  rc : Int
  delivered : Bool
  dres : Option DispatchResult
deriving DecidableEq, Repr

/-- send_signal2 (signal.c lines 262-297). The task table is a list;
get_task(tid) is lookup by thread id. currTid identifies the currently
running task so that do_send_signal can compare the target with it. -/
def send_signal2 (tasks : List KTask) (currTid : Nat)
    (pid tid signum : Nat) (whole_process : Bool) : SendResult :=
  match tasks.find? (fun t => t.tid = tid) with
  | none => { rc := -ESRCH, delivered := false, dres := none }
  | some ti =>
      if ti.kernelThread then
        { rc := -ESRCH, delivered := false, dres := none }
      else if whole_process ∧ ti.pi.pid ≠ tid then
        { rc := -ESRCH, delivered := false, dres := none }
      else if ti.pi.pid ≠ pid then
        { rc := -ESRCH, delivered := false, dres := none }
      else if signum = 0 then
        { rc := 0, delivered := false, dres := none }
      else if ti.state = TaskState.zombie then
        { rc := 0, delivered := false, dres := none }
      else
        { rc := 0, delivered := true,
          dres := some (do_send_signal (ti.tid = currTid) ti signum) }

/-- struct k_sigaction as copied from user memory: the handler pointer and
the flags word (sa_mask is copied but never consulted by sigaction_int, so
it is omitted here). -/
structure KSigaction where
  handler : Handler
  sa_flags : Nat
deriving DecidableEq, Repr

/-- sigaction_int (signal.c lines 305-348). userAct models the user
pointer's contents: none is a copy_from_user fault. Returns the error code
and the (possibly updated) sa_handlers table. SA_RESETHAND, SA_NODEFER and
SA_RESTART are accepted and ignored. -/
def sigaction_int (handlers : List Handler) (signum : Nat)
    (userAct : Option KSigaction) : Int × List Handler :=
  match userAct with
  | none => (-EFAULT, handlers)
  | some act =>
      if act.sa_flags &&& SA_NOCLDSTOP ≠ 0 then (-EINVAL, handlers)
      else if act.sa_flags &&& SA_NOCLDWAIT ≠ 0 then (-EINVAL, handlers)
      else if act.sa_flags &&& SA_SIGINFO ≠ 0 then (-EINVAL, handlers)
      else if act.sa_flags &&& SA_ONSTACK ≠ 0 then (-EINVAL, handlers)
      else (0, handlers.set (signum - 1) act.handler)

/-- sys_rt_sigaction (signal.c lines 350-394). userAct: outer none models a
NULL user_act pointer, inner none a copy fault. oldactPresent models a
non-NULL user_oldact; oldactCopyOk models whether the copy_to_user of the
old action succeeds. sigsetsizeOk models sigsetsize == sizeof(sa_mask). -/
def sys_rt_sigaction (handlers : List Handler) (signum : Nat)
    (userAct : Option (Option KSigaction))
    (oldactPresent oldactCopyOk : Bool) (sigsetsizeOk : Bool) :
    Int × List Handler :=
  if ¬(1 ≤ signum ∧ signum < NSIG) then (-EINVAL, handlers)
  else if signum = SIGKILL ∨ signum = SIGSTOP then (-EINVAL, handlers)
  else if ¬sigsetsizeOk then (-EINVAL, handlers)
  else
    let r :=
      match userAct with
      | none => ((0 : Int), handlers)
      | some a => sigaction_int handlers signum a
    if r.fst = 0 ∧ oldactPresent ∧ ¬oldactCopyOk then (-EFAULT, r.snd)
    else r

/-- The per-word copy/apply loop of sys_rt_sigprocmask (signal.c lines
427-460). userWords models the user-supplied set: entry i is the i-th word,
none meaning copy_from_user faults on that word. i is the current word
index; fuel is the number of remaining iterations (the initial call uses
the mask length, so the loop runs for i in [0, K_SIGACTION_MASK_WORDS)).
Each successfully copied word is applied to the kernel mask immediately,
before the next word is copied. -/
def sigprocmaskLoop (how : Nat) (userWords : List (Option Nat))
    (mask : List Nat) (i : Nat) : Nat → Int × List Nat
  | 0 => (0, mask)
  | fuel + 1 =>
      match userWords.getD i none with
      | none => (-EFAULT, mask)
      | some w =>
          if how = SIG_BLOCK then
            sigprocmaskLoop how userWords
              (mask.set i (mask.getD i 0 ||| w)) (i + 1) fuel
          else if how = SIG_UNBLOCK then
            sigprocmaskLoop how userWords
              (mask.set i (Nat.ldiff (mask.getD i 0) w)) (i + 1) fuel
          else if how = SIG_SETMASK then
            sigprocmaskLoop how userWords (mask.set i w) (i + 1) fuel
          else
            (-EINVAL, mask)

/-- sys_rt_sigprocmask (signal.c lines 396-463). mask is the process's
blocked mask pi->sa_mask (length K_SIGACTION_MASK_WORDS). userSet: none
models a NULL user_set pointer. oldsetPresent models a non-NULL
user_oldset; oldsetCopyFails models a copy_to_user fault on either the
mask copy-out or the zero padding. Returns the error code and the
resulting kernel mask. -/
def sys_rt_sigprocmask (how : Nat) (userSet : Option (List (Option Nat)))
    (oldsetPresent oldsetCopyFails : Bool) (mask : List Nat) :
    Int × List Nat :=
  if oldsetPresent ∧ oldsetCopyFails then
    (-EFAULT, mask)
  else
    match userSet with
    | none => (0, mask)
    | some ws => sigprocmaskLoop how ws mask 0 mask.length

/-- The effect one loop iteration of sys_rt_sigprocmask has on one mask
word under a valid mode; used to state what a faulting call has already
applied. -/
def applyMaskWord (how : Nat) (old w : Nat) : Nat :=
  if how = SIG_BLOCK then old ||| w
  else if how = SIG_UNBLOCK then Nat.ldiff old w
  else w

/-- The mask after k consecutive user words starting at word index a have
been copied and applied (the prefix a faulting sys_rt_sigprocmask call
leaves behind, with a = 0 and k = the index of the faulting word). -/
def applyMaskWordsFrom (how : Nat) (userWords : List (Option Nat)) :
    List Nat → Nat → Nat → List Nat
  | m, _, 0 => m
  | m, a, k + 1 =>
      applyMaskWordsFrom how userWords
        (m.set a (applyMaskWord how (m.getD a 0)
          ((userWords.getD a none).getD 0)))
        (a + 1) k

/-- task_change_state_idempotent, called by switch_to_task. Modelled from
the spec: the Context Switch Engine transitions the target to RUNNING
idempotently (a no-op transition is permitted when the target is already
the running task); the function body is not part of the sources. -/
def task_change_state_idempotent (ti : KTask) (s : TaskState) : KTask :=
  { ti with state := s }

/-- The precondition ASSERTs of switch_to_task (part_000 lines 174-177):
they are evaluated only when the target differs from the current task, and
then require the current task to have left the RUNNING state and the
target to be RUNNABLE. Distinct live tasks are distinguished by tid. -/
def switch_to_task_asserts_ok (curr ti : KTask) : Bool :=
  if ti.tid ≠ curr.tid then
    decide (curr.state ≠ TaskState.running) &&
    decide (ti.state = TaskState.runnable)
  else
    true

/-- The state-machine-visible head of switch_to_task (part_000 lines
165-184): run the precondition ASSERTs (none on failure, modelling the
fatal assertion) and transition the target to RUNNING via
task_change_state_idempotent. The remainder of the routine (FPU context,
page-directory switch, interrupt bookkeeping, the final context_switch)
does not touch the task-state field. -/
def switch_to_task_state_head (curr ti : KTask) : Option KTask :=
  if switch_to_task_asserts_ok curr ti then
    some (task_change_state_idempotent ti TaskState.running)
  else
    none

/-- Outcome of a hardware-fault entry point: an immediate panic carrying
the fault name, or a signal send tagged with SIG_FL_PROCESS and
SIG_FL_FAULT (the two Bool fields). -/
inductive FaultOutcome where
  | halt : String → FaultOutcome
  | send : Nat → Nat → Bool → Bool → FaultOutcome
deriving DecidableEq, Repr

/-- handle_fatal_error (part_000 lines 299-303): send the signal to the
current task's tid with SIG_FL_PROCESS | SIG_FL_FAULT. -/
def handle_fatal_error (currTid : Nat) (signum : Nat) : FaultOutcome :=
  FaultOutcome.send currTid signum true true

/-- handle_generic_fault_int (part_000 lines 305-312): panic when there is
no current task or it is a kernel thread, else deliver SIGSEGV. -/
def handle_generic_fault_int (curr : Option KTask) (fault_name : String) :
    FaultOutcome :=
  match curr with
  | none => FaultOutcome.halt fault_name
  | some t =>
      if t.kernelThread then FaultOutcome.halt fault_name
      else handle_fatal_error t.tid SIGSEGV

/-- handle_inst_illegal_fault_int (part_000 lines 314-321): panic when
there is no current task or it is a kernel thread, else deliver SIGILL. -/
def handle_inst_illegal_fault_int (curr : Option KTask)
    (fault_name : String) : FaultOutcome :=
  match curr with
  | none => FaultOutcome.halt fault_name
  | some t =>
      if t.kernelThread then FaultOutcome.halt fault_name
      else handle_fatal_error t.tid SIGILL

/-- handle_bus_fault_int (part_000 lines 323-330): panic when there is no
current task or it is a kernel thread, else deliver SIGBUS. -/
def handle_bus_fault_int (curr : Option KTask) (fault_name : String) :
    FaultOutcome :=
  match curr with
  | none => FaultOutcome.halt fault_name
  | some t =>
      if t.kernelThread then FaultOutcome.halt fault_name
      else handle_fatal_error t.tid SIGBUS

/-- A plain user task with thread id n, owning a single-task process with
pid n, default dispositions and an empty one-word pending mask; used to
instantiate theorems at concrete inputs. -/
def utask (n : Nat) : KTask :=
  { tid := n,
    pi := { pid := n, sa_handlers := [], sa_mask := [0] },
    state := TaskState.runnable,
    pending_signums := [0],
    wobjType := WobjType.wobjNone,
    vfork_stopped := false,
    stopped := false,
    kernelThread := false,
    wstatus := WStatus.wsNone }

/-- A kernel-only thread with thread id n. -/
def ktask (n : Nat) : KTask :=
  { utask n with kernelThread := true }

/-
  ---------------------------------------------------------------
  C5 - out-of-range signal numbers and the pending bitmask
  ---------------------------------------------------------------
-/

/-- Claim C5: for every signal number whose bitmask slot lies at or beyond
K_SIGACTION_MASK_WORDS (the mask length), add_pending_sig and
del_pending_sig return the bitmask unchanged and is_pending_sig returns
false; the functions return before any bitmask word is read or written, so
no access indexes the bitmask out of bounds. -/
theorem pending_ops_out_of_range_noop (mask : List Nat) (signum : Nat)
    (_hsig : 1 ≤ signum)
    (hslot : (signum - 1) / NBITS ≥ mask.length) :
    add_pending_sig mask signum = mask ∧
    del_pending_sig mask signum = mask ∧
    is_pending_sig mask signum = false := by
  refine ⟨?_, ?_, ?_⟩ <;>
    simp [add_pending_sig, del_pending_sig, is_pending_sig, hslot]

/-- Witness for C5 at signal 100 against a one-word mask (slot 1 ≥ 1). -/
theorem pending_ops_out_of_range_noop_witness :
    add_pending_sig [3] 100 = [3] ∧
    del_pending_sig [3] 100 = [3] ∧
    is_pending_sig [3] 100 = false :=
  pending_ops_out_of_range_noop [3] 100 (by decide) (by decide)

/-
  ---------------------------------------------------------------
  C8 - switch_to with the target equal to the current task
  ---------------------------------------------------------------
-/

/-- Claim C8: when the target of switch_to_task is the current task, the
different-task precondition ASSERTs (current not RUNNING, target RUNNABLE)
are skipped regardless of the task's state, and the only state transition
performed is the idempotent one to RUNNING: if the task was RUNNING the
state field (and the whole task) is unchanged. -/
theorem switch_to_self_noop (t : KTask) :
    switch_to_task_asserts_ok t t = true ∧
    switch_to_task_state_head t t =
      some (task_change_state_idempotent t TaskState.running) ∧
    (t.state = TaskState.running → switch_to_task_state_head t t = some t) := by
  have h1 : switch_to_task_asserts_ok t t = true := by
    simp [switch_to_task_asserts_ok]
  refine ⟨h1, ?_, ?_⟩
  · simp [switch_to_task_state_head, h1]
  · intro hs
    simp [switch_to_task_state_head, h1, task_change_state_idempotent]
    cases t
    simp_all

/-- Witness for C8 at a concrete task in the RUNNING state. -/
theorem switch_to_self_noop_witness :
    switch_to_task_state_head
      { utask 4 with state := TaskState.running }
      { utask 4 with state := TaskState.running } =
    some { utask 4 with state := TaskState.running } :=
  (switch_to_self_noop { utask 4 with state := TaskState.running }).2.2 rfl

/-
  ---------------------------------------------------------------
  C9 - hardware fault entry points
  ---------------------------------------------------------------
-/

/-- Claim C9: each of the three fault entry points panics with the fault
name when there is no current task or the current task is a kernel-only
thread, and otherwise sends SIGSEGV / SIGILL / SIGBUS respectively to the
current task's thread id, tagged process-wide and fault-originated. -/
theorem fault_handlers_dispatch (curr : Option KTask) (name : String) :
    ((curr = none ∨ ∃ t, curr = some t ∧ t.kernelThread = true) →
      handle_generic_fault_int curr name = FaultOutcome.halt name ∧
      handle_inst_illegal_fault_int curr name = FaultOutcome.halt name ∧
      handle_bus_fault_int curr name = FaultOutcome.halt name) ∧
    (∀ t, curr = some t → t.kernelThread = false →
      handle_generic_fault_int curr name =
        FaultOutcome.send t.tid SIGSEGV true true ∧
      handle_inst_illegal_fault_int curr name =
        FaultOutcome.send t.tid SIGILL true true ∧
      handle_bus_fault_int curr name =
        FaultOutcome.send t.tid SIGBUS true true) := by
  constructor
  · rintro (rfl | ⟨t, rfl, hk⟩) <;>
      simp [handle_generic_fault_int, handle_inst_illegal_fault_int,
            handle_bus_fault_int, handle_fatal_error, *]
  · rintro t rfl hk
    simp [handle_generic_fault_int, handle_inst_illegal_fault_int,
          handle_bus_fault_int, handle_fatal_error, hk]

/-- Witness for C9: a kernel thread panics; a user task gets the three
signals. -/
theorem fault_handlers_dispatch_witness :
    handle_generic_fault_int (some (ktask 2)) "mmu" = FaultOutcome.halt "mmu" ∧
    handle_generic_fault_int (some (utask 3)) "mmu" =
      FaultOutcome.send 3 SIGSEGV true true ∧
    handle_inst_illegal_fault_int (some (utask 3)) "ill" =
      FaultOutcome.send 3 SIGILL true true ∧
    handle_bus_fault_int (some (utask 3)) "bus" =
      FaultOutcome.send 3 SIGBUS true true :=
  ⟨((fault_handlers_dispatch (some (ktask 2)) "mmu").1
      (Or.inr ⟨ktask 2, rfl, rfl⟩)).1,
   ((fault_handlers_dispatch (some (utask 3)) "mmu").2 (utask 3) rfl rfl).1,
   ((fault_handlers_dispatch (some (utask 3)) "ill").2 (utask 3) rfl rfl).2.1,
   ((fault_handlers_dispatch (some (utask 3)) "bus").2 (utask 3) rfl rfl).2.2⟩

/-
  ---------------------------------------------------------------
  C10 - sigprocmask mode validation happens only inside the copy loop
  ---------------------------------------------------------------
-/

/-- Claim C10: with a NULL new-set pointer, sys_rt_sigprocmask returns
success for every mode value (valid or not) provided the old-set copy-out
succeeds, and leaves the blocked mask unchanged; the invalid-mode error can
only be produced when a new set is supplied. -/
theorem sigprocmask_mode_checked_only_with_set :
    (∀ (how : Nat) (mask : List Nat) (oldsetPresent : Bool),
      sys_rt_sigprocmask how none oldsetPresent false mask = (0, mask)) ∧
    (∀ (how : Nat) (userSet : Option (List (Option Nat)))
       (oldsetPresent oldsetCopyFails : Bool) (mask : List Nat),
      (sys_rt_sigprocmask how userSet oldsetPresent oldsetCopyFails
        mask).fst = -EINVAL →
      userSet ≠ none) := by
  constructor
  · intro how mask p
    simp [sys_rt_sigprocmask]
  · intro how us p o mask h hnone
    subst hnone
    unfold sys_rt_sigprocmask at h
    split at h <;> simp_all [EFAULT, EINVAL]

/-- Witness for C10: an invalid mode (7) with a NULL new set succeeds, and
the only -EINVAL outcome shown comes from a supplied set. -/
theorem sigprocmask_mode_checked_only_with_set_witness :
    sys_rt_sigprocmask 7 none true false [3] = (0, [3]) ∧
    (some [some 0] : Option (List (Option Nat))) ≠ none :=
  ⟨sigprocmask_mode_checked_only_with_set.1 7 [3] true,
   sigprocmask_mode_checked_only_with_set.2 7 (some [some 0]) false false [3]
     (by decide)⟩

/-
  ---------------------------------------------------------------
  C7 - unsupported sigaction flags are rejected without a table write
  ---------------------------------------------------------------
-/

/-- Claim C7: a disposition-installation request whose flags include any of
SA_NOCLDSTOP, SA_NOCLDWAIT, SA_SIGINFO or SA_ONSTACK returns -EINVAL and
leaves the stored disposition table unchanged, whatever the other
arguments are. -/
theorem sigaction_unsupported_flags_rejected
    (handlers : List Handler) (signum : Nat) (act : KSigaction)
    (oldactPresent oldactCopyOk sigsetsizeOk : Bool)
    (hflags : act.sa_flags &&& SA_NOCLDSTOP ≠ 0 ∨
              act.sa_flags &&& SA_NOCLDWAIT ≠ 0 ∨
              act.sa_flags &&& SA_SIGINFO ≠ 0 ∨
              act.sa_flags &&& SA_ONSTACK ≠ 0) :
    sys_rt_sigaction handlers signum (some (some act))
      oldactPresent oldactCopyOk sigsetsizeOk = (-EINVAL, handlers) := by
  have hint : sigaction_int handlers signum (some act) = (-EINVAL, handlers) := by
    show (if act.sa_flags &&& SA_NOCLDSTOP ≠ 0 then (-EINVAL, handlers)
      else if act.sa_flags &&& SA_NOCLDWAIT ≠ 0 then (-EINVAL, handlers)
      else if act.sa_flags &&& SA_SIGINFO ≠ 0 then (-EINVAL, handlers)
      else if act.sa_flags &&& SA_ONSTACK ≠ 0 then (-EINVAL, handlers)
      else ((0 : Int), handlers.set (signum - 1) act.handler)) =
      (-EINVAL, handlers)
    rcases hflags with h | h | h | h <;> split_ifs <;> simp_all
  unfold sys_rt_sigaction
  split_ifs with h1 h2 h3 <;> try rfl
  simp only [hint]
  norm_num [EINVAL]

/-- Witness for C7: installing a SIGTERM handler with SA_SIGINFO set fails
with -EINVAL and leaves the (empty, all-default) table unchanged. -/
theorem sigaction_unsupported_flags_rejected_witness :
    sys_rt_sigaction [] SIGTERM
      (some (some { handler := Handler.custom 4096, sa_flags := SA_SIGINFO }))
      true true true = (-EINVAL, []) :=
  sigaction_unsupported_flags_rejected [] SIGTERM
    { handler := Handler.custom 4096, sa_flags := SA_SIGINFO }
    true true true (Or.inr (Or.inr (Or.inl (by decide))))

/-
  ---------------------------------------------------------------
  C2 - custom handler dispositions versus explicit-ignore
  ---------------------------------------------------------------
-/

/-- The init task (tid 1) with a user handler installed for SIGTERM. -/
def initTaskCustom : KTask :=
  { tid := 1,
    pi := { pid := 1,
            sa_handlers :=
              List.replicate 14 Handler.dfl ++ [Handler.custom 4096],
            sa_mask := [0] },
    state := TaskState.runnable,
    pending_signums := [0],
    wobjType := WobjType.wobjNone,
    vfork_stopped := false,
    stopped := false,
    kernelThread := false,
    wstatus := WStatus.wsNone }

/-- The init task (tid 1) with an explicit SIG_IGN disposition for
SIGTERM. -/
def initTaskIgn : KTask :=
  { initTaskCustom with
    pi := { initTaskCustom.pi with
            sa_handlers :=
              List.replicate 14 Handler.dfl ++ [Handler.ign] } }

/-- Counterexample to claim C2 as stated: delivering SIGTERM to the init
task (tid 1) whose disposition is а non-default user handler emits no
warning, whereas the explicit-ignore disposition does emit the init
warning — the observable side effects differ, so dispatch under a custom
handler is not identical to the ignore disposition. -/
theorem custom_handler_not_identical_to_ignore :
    (do_send_signal false initTaskCustom SIGTERM).warnInitIgnore = false ∧
    (do_send_signal false initTaskIgn SIGTERM).warnInitIgnore = true ∧
    initTaskCustom.tid = 1 := by decide

/-- Claim C2 (amended): when the disposition is a non-default user handler,
dispatch returns immediately with no task or process state change and no
observable side effect at all; in particular, unlike the explicit-ignore
disposition, the init-task warning is not emitted even when the target has
thread id 1. -/
theorem custom_handler_is_pure_noop (isCurr : Bool) (t : KTask)
    (signum a : Nat)
    (hs : 1 ≤ signum)
    (hh : t.pi.sa_handlers.getD (signum - 1) Handler.dfl = Handler.custom a) :
    do_send_signal isCurr t signum = noEffect t := by
  unfold do_send_signal
  rw [if_neg (by omega : ¬ signum = 0), hh]

/-- Witness for the amended C2 at the init task with a custom SIGTERM
handler. -/
theorem custom_handler_is_pure_noop_witness :
    do_send_signal false initTaskCustom SIGTERM = noEffect initTaskCustom :=
  custom_handler_is_pure_noop false initTaskCustom SIGTERM 4096
    (by decide) (by decide)

/-
  ---------------------------------------------------------------
  C4 - terminate-class signal sent to another task
  ---------------------------------------------------------------
-/

/-- is_pending_sig holds for the signal just marked by add_pending_sig,
provided its slot is inside the mask. -/
theorem is_pending_add_pending (mask : List Nat) (signum : Nat)
    (h : (signum - 1) / NBITS < mask.length) :
    is_pending_sig (add_pending_sig mask signum) signum = true := by
  have hnot : ¬ (signum - 1) / NBITS ≥ mask.length := Nat.not_le.mpr h
  unfold add_pending_sig is_pending_sig
  simp only [if_neg hnot, List.length_set]
  rw [List.getD_eq_getElem?_getD, List.getElem?_set_eq_of_lt _ h]
  simp [Nat.testBit_or, Nat.shiftLeft_eq, Nat.testBit_two_pow_self]

/-- Claim C4: a signal whose resolved default action is terminate,
delivered (with default disposition) to a task other than the current one
that is not vfork-suspended, is marked pending in the target's bitmask;
if the target is SLEEPING on a condition or on a timed sleep it becomes
RUNNABLE, while if it is SLEEPING on a mutex or semaphore wait its state
field is unchanged (with the pending bit still set either way). -/
theorem terminate_signal_to_other_task
    (t : KTask) (signum : Nat)
    (hdfl : t.pi.sa_handlers.getD (signum - 1) Handler.dfl = Handler.dfl)
    (hterm : (signal_default_actions signum).getD ActionKind.terminate =
             ActionKind.terminate)
    (hs : 1 ≤ signum)
    (hslot : (signum - 1) / NBITS < t.pending_signums.length)
    (hvf : t.vfork_stopped = false) :
    is_pending_sig
      ((do_send_signal false t signum).task).pending_signums signum = true ∧
    (t.state = TaskState.sleeping →
      (t.wobjType = WobjType.wobjKcond ∨ t.wobjType = WobjType.wobjTimer →
        (do_send_signal false t signum).task.state = TaskState.runnable) ∧
      (t.wobjType = WobjType.wobjKmutex ∨ t.wobjType = WobjType.wobjSem →
        (do_send_signal false t signum).task.state = t.state)) := by
  have hred : do_send_signal false t signum =
      action_terminate false t signum := by
    unfold do_send_signal
    rw [if_neg (by omega : ¬ signum = 0), hdfl, hterm]
  rw [hred]
  by_cases hc : t.state = TaskState.sleeping ∧
      t.wobjType ≠ WobjType.wobjKmutex ∧ t.wobjType ≠ WobjType.wobjSem
  · refine ⟨?_, fun hst => ⟨fun _ => ?_, fun hw => ?_⟩⟩
    · simp [action_terminate, hvf, hc, is_pending_add_pending _ _ hslot]
    · simp [action_terminate, hvf, hc]
    · exfalso
      rcases hw with hw | hw
      · exact hc.2.1 hw
      · exact hc.2.2 hw
  · refine ⟨?_, fun hst => ⟨fun hw => ?_, fun _ => ?_⟩⟩
    · simp [action_terminate, hvf, hc, is_pending_add_pending _ _ hslot]
    · exfalso
      apply hc
      rcases hw with hw | hw <;> simp [hst, hw]
    · simp [action_terminate, hvf, hc]

/-- Witness for C4: SIGTERM sent to a task sleeping on a condition becomes
pending and wakes it to RUNNABLE; the same signal sent to a task sleeping
on a mutex stays pending without a wakeup. -/
theorem terminate_signal_to_other_task_witness :
    (is_pending_sig
      (do_send_signal false
        { utask 9 with state := TaskState.sleeping,
                       wobjType := WobjType.wobjKcond } SIGTERM).task.pending_signums
      SIGTERM = true ∧
     (do_send_signal false
        { utask 9 with state := TaskState.sleeping,
                       wobjType := WobjType.wobjKcond } SIGTERM).task.state =
       TaskState.runnable) ∧
    (is_pending_sig
      (do_send_signal false
        { utask 9 with state := TaskState.sleeping,
                       wobjType := WobjType.wobjKmutex } SIGTERM).task.pending_signums
      SIGTERM = true ∧
     (do_send_signal false
        { utask 9 with state := TaskState.sleeping,
                       wobjType := WobjType.wobjKmutex } SIGTERM).task.state =
       TaskState.sleeping) := by
  constructor
  · have h := terminate_signal_to_other_task
      { utask 9 with state := TaskState.sleeping,
                     wobjType := WobjType.wobjKcond } SIGTERM
      (by decide) (by decide) (by decide) (by decide) (by decide)
    exact ⟨h.1, ((h.2 rfl).1 (Or.inl rfl))⟩
  · have h := terminate_signal_to_other_task
      { utask 9 with state := TaskState.sleeping,
                     wobjType := WobjType.wobjKmutex } SIGTERM
      (by decide) (by decide) (by decide) (by decide) (by decide)
    exact ⟨h.1, ((h.2 rfl).2 (Or.inl rfl))⟩

/-
  ---------------------------------------------------------------
  C3 - send_signal2 return value and delivery conditions
  ---------------------------------------------------------------
-/

/-- Claim C3: send_signal2 returns -ESRCH exactly when no task has thread
id tid, or the task resolved by tid is a kernel-only thread, or
whole_process is true but tid is not the task's process id, or the task's
process id differs from pid; in every other case it returns 0, and it
invokes no delivery when signum is 0 or the target is a ZOMBIE. -/
theorem send_signal2_rc_characterization
    (tasks : List KTask) (currTid pid tid signum : Nat) (whole : Bool) :
    ((send_signal2 tasks currTid pid tid signum whole).rc = -ESRCH ↔
      (∀ t ∈ tasks, t.tid ≠ tid) ∨
      (∃ t, tasks.find? (fun x => x.tid = tid) = some t ∧
        (t.kernelThread = true ∨ (whole = true ∧ t.pi.pid ≠ tid) ∨
         t.pi.pid ≠ pid))) ∧
    ((send_signal2 tasks currTid pid tid signum whole).rc ≠ -ESRCH →
      (send_signal2 tasks currTid pid tid signum whole).rc = 0) ∧
    (∀ t, tasks.find? (fun x => x.tid = tid) = some t →
      (signum = 0 ∨ t.state = TaskState.zombie) →
      (send_signal2 tasks currTid pid tid signum whole).delivered = false) := by
  cases hfind : tasks.find? (fun x => x.tid = tid) with
  | none =>
      have hnone : ∀ t ∈ tasks, t.tid ≠ tid := by
        intro t ht
        have h := List.find?_eq_none.mp hfind t ht
        simpa using h
      have hrc : (send_signal2 tasks currTid pid tid signum whole).rc =
          -ESRCH := by
        simp [send_signal2, hfind]
      refine ⟨⟨fun _ => Or.inl hnone, fun _ => hrc⟩, ?_, ?_⟩
      · intro hne
        exact absurd hrc hne
      · intro t ht
        exact absurd ht (by simp)
  | some ti =>
      have hmem : ti ∈ tasks := List.mem_of_find?_eq_some hfind
      have htid : ti.tid = tid := by
        have h := List.find?_some hfind
        simpa using h
      simp only [send_signal2, hfind]
      split_ifs with h1 h2 h3 h4 h5
      · exact ⟨⟨fun _ => Or.inr ⟨ti, rfl, Or.inl h1⟩, fun _ => rfl⟩,
          fun hne => absurd rfl hne, fun t _ _ => rfl⟩
      · exact ⟨⟨fun _ => Or.inr ⟨ti, rfl, Or.inr (Or.inl h2)⟩, fun _ => rfl⟩,
          fun hne => absurd rfl hne, fun t _ _ => rfl⟩
      · exact ⟨⟨fun _ => Or.inr ⟨ti, rfl, Or.inr (Or.inr h3)⟩, fun _ => rfl⟩,
          fun hne => absurd rfl hne, fun t _ _ => rfl⟩
      · refine ⟨⟨fun habs => ?_, fun hrhs => ?_⟩, fun _ => rfl,
          fun t _ _ => rfl⟩
        · exact absurd habs (by norm_num [ESRCH])
        · exfalso
          rcases hrhs with hall | ⟨t, hsome, hconds⟩
          · exact hall ti hmem htid
          · cases hsome
            rcases hconds with hk | hw | hp
            · exact h1 hk
            · exact h2 hw
            · exact h3 hp
      · refine ⟨⟨fun habs => ?_, fun hrhs => ?_⟩, fun _ => rfl,
          fun t _ _ => rfl⟩
        · exact absurd habs (by norm_num [ESRCH])
        · exfalso
          rcases hrhs with hall | ⟨t, hsome, hconds⟩
          · exact hall ti hmem htid
          · cases hsome
            rcases hconds with hk | hw | hp
            · exact h1 hk
            · exact h2 hw
            · exact h3 hp
      · refine ⟨⟨fun habs => ?_, fun hrhs => ?_⟩, fun _ => rfl,
          fun t hsome hnd => ?_⟩
        · exact absurd habs (by norm_num [ESRCH])
        · exfalso
          rcases hrhs with hall | ⟨t, hsome, hconds⟩
          · exact hall ti hmem htid
          · cases hsome
            rcases hconds with hk | hw | hp
            · exact h1 hk
            · exact h2 hw
            · exact h3 hp
        · exfalso
          cases hsome
          rcases hnd with h0 | hz
          · exact h4 h0
          · exact h5 hz

/-- Witness for C3: sending to an existing user task with matching pid
succeeds, and signal 0 sent to it performs no delivery. -/
theorem send_signal2_rc_characterization_witness :
    ((send_signal2 [utask 6] 1 6 6 0 false).rc = -ESRCH ↔
      (∀ t ∈ [utask 6], t.tid ≠ 6) ∨
      (∃ t, [utask 6].find? (fun x => x.tid = 6) = some t ∧
        (t.kernelThread = true ∨ (false = true ∧ t.pi.pid ≠ 6) ∨
         t.pi.pid ≠ 6))) ∧
    (send_signal2 [utask 6] 1 6 6 0 false).delivered = false :=
  ⟨(send_signal2_rc_characterization [utask 6] 1 6 6 0 false).1,
   (send_signal2_rc_characterization [utask 6] 1 6 6 0 false).2.2
     (utask 6) (by decide) (Or.inl rfl)⟩

/-
  ---------------------------------------------------------------
  C6 - get_first_pending_sig returns the lowest pending signal
  ---------------------------------------------------------------
-/

/-- Specification of the bit-scan loop: the result is the first index at or
after i whose bit is set, and it stops at i + fuel when no bit is found. -/
theorem fsbAux_spec (num : Nat) :
    ∀ (fuel i : Nat),
      i ≤ fsbAux num i fuel ∧
      fsbAux num i fuel ≤ i + fuel ∧
      (∀ j, i ≤ j → j < fsbAux num i fuel → num.testBit j = false) ∧
      (fsbAux num i fuel < i + fuel →
        num.testBit (fsbAux num i fuel) = true) := by
  intro fuel
  induction fuel with
  | zero =>
      intro i
      simp only [fsbAux]
      exact ⟨le_rfl, by omega,
        fun j h1 h2 => absurd h2 (by omega),
        fun h => absurd h (by omega)⟩
  | succ fuel ih =>
      intro i
      by_cases hbit : num.testBit i = true
      · have heq : fsbAux num i (fuel + 1) = i := by simp [fsbAux, hbit]
        rw [heq]
        exact ⟨le_rfl, by omega,
          fun j h1 h2 => absurd h2 (by omega), fun _ => hbit⟩
      · have hb' : num.testBit i = false := by simpa using hbit
        have heq : fsbAux num i (fuel + 1) = fsbAux num (i + 1) fuel := by
          simp [fsbAux, hb']
        rw [heq]
        obtain ⟨ih1, ih2, ih3, ih4⟩ := ih (i + 1)
        refine ⟨by omega, by omega, ?_, fun h => ih4 (by omega)⟩
        intro j h1 h2
        by_cases hj : j = i
        · subst hj; exact hb'
        · exact ih3 j (by omega) h2

/-- get_first_set_bit_index64 on a nonzero 64-bit word returns the index of
its lowest set bit. -/
theorem get_first_set_bit_index64_spec (num : Nat)
    (h0 : num ≠ 0) (hlt : num < 2 ^ 64) :
    get_first_set_bit_index64 num < 64 ∧
    num.testBit (get_first_set_bit_index64 num) = true ∧
    ∀ j, j < get_first_set_bit_index64 num → num.testBit j = false := by
  unfold get_first_set_bit_index64
  obtain ⟨h1, h2, h3, h4⟩ := fsbAux_spec num 64 0
  by_cases hlt64 : fsbAux num 0 64 < 64
  · exact ⟨hlt64, h4 (by omega), fun j hj => h3 j (by omega) hj⟩
  · exfalso
    have hall : ∀ j, num.testBit j = false := by
      intro j
      by_cases hj : j < 64
      · exact h3 j (by omega) (by omega)
      · exact Nat.testBit_lt_two_pow
          (lt_of_lt_of_le hlt (Nat.pow_le_pow_right (by omega) (by omega)))
    exact h0 (Nat.eq_of_testBit_eq fun j => by
      rw [hall j, Nat.zero_testBit])

/-- is_pending_sig in terms of getD: the out-of-range branch coincides with
reading the default word 0, whose bits are all clear. -/
theorem is_pending_sig_getD (mask : List Nat) (s : Nat) :
    is_pending_sig mask s =
      (mask.getD ((s - 1) / 64) 0).testBit ((s - 1) % 64) := by
  show (if (s - 1) / NBITS ≥ mask.length then false
        else (mask.getD ((s - 1) / NBITS) 0).testBit ((s - 1) % NBITS)) =
      (mask.getD ((s - 1) / 64) 0).testBit ((s - 1) % 64)
  unfold NBITS
  by_cases h : (s - 1) / 64 ≥ mask.length
  · rw [if_pos h, List.getD_eq_default _ _ (by omega)]
    simp
  · rw [if_neg h]

/-- Peeling one word off the mask: signals 1..64 live in the head word, the
rest in the tail shifted by 64. -/
theorem is_pending_sig_cons (w : Nat) (ws : List Nat) (s : Nat)
    (hs : 1 ≤ s) :
    is_pending_sig (w :: ws) s =
      if s ≤ 64 then w.testBit (s - 1) else is_pending_sig ws (s - 64) := by
  by_cases hle : s ≤ 64
  · rw [if_pos hle, is_pending_sig_getD]
    have h0 : (s - 1) / 64 = 0 := by omega
    have h1 : (s - 1) % 64 = s - 1 := by omega
    rw [h0, h1]
    rfl
  · rw [if_neg hle, is_pending_sig_getD, is_pending_sig_getD]
    have h0 : (s - 1) / 64 = (s - 64 - 1) / 64 + 1 := by omega
    have h1 : (s - 1) % 64 = (s - 64 - 1) % 64 := by omega
    rw [h0, h1, List.getD_cons_succ]

/-- The word-scan loop of get_first_pending_sig, characterized against
is_pending_sig: starting at word index i it returns -1 exactly when no
signal is pending, and otherwise returns (as i*64 + bit + 1) the lowest
pending signal number. -/
theorem getFirstPendingAux_spec (ws : List Nat) :
    ∀ i : Nat, (∀ w ∈ ws, w < 2 ^ 64) →
      (getFirstPendingAux ws i = -1 ↔
        ∀ s, 1 ≤ s → is_pending_sig ws s = false) ∧
      (∀ n : Nat, getFirstPendingAux ws i = (n : Int) →
        i * 64 + 1 ≤ n ∧
        is_pending_sig ws (n - i * 64) = true ∧
        ∀ m, 1 ≤ m → m < n - i * 64 → is_pending_sig ws m = false) := by
  induction ws with
  | nil =>
      intro i _
      constructor
      · constructor
        · intro _ s hs
          rw [is_pending_sig_getD]
          simp
        · intro _
          rfl
      · intro n hn
        have h : (-1 : Int) = (n : Int) := hn
        omega
  | cons w ws ih =>
      intro i hb
      have hw : w < 2 ^ 64 := hb w (List.mem_cons_self w ws)
      have hbs : ∀ x ∈ ws, x < 2 ^ 64 :=
        fun x hx => hb x (List.mem_cons_of_mem w hx)
      by_cases hw0 : w = 0
      · subst hw0
        have haux : getFirstPendingAux (0 :: ws) i =
            getFirstPendingAux ws (i + 1) := rfl
        obtain ⟨ih1, ih2⟩ := ih (i + 1) hbs
        constructor
        · rw [haux, ih1]
          constructor
          · intro h s hs
            rw [is_pending_sig_cons _ _ _ hs]
            by_cases hle : s ≤ 64
            · simp [hle]
            · rw [if_neg hle]
              exact h (s - 64) (by omega)
          · intro h s hs
            have h2 := h (s + 64) (by omega)
            rw [is_pending_sig_cons _ _ _ (by omega),
              if_neg (by omega)] at h2
            simpa using h2
        · intro n hn
          rw [haux] at hn
          obtain ⟨hge, hpend, hmin⟩ := ih2 n hn
          refine ⟨by omega, ?_, ?_⟩
          · rw [is_pending_sig_cons _ _ _ (by omega), if_neg (by omega)]
            have he : n - i * 64 - 64 = n - (i + 1) * 64 := by omega
            rw [he]
            exact hpend
          · intro m hm1 hm2
            rw [is_pending_sig_cons _ _ _ hm1]
            by_cases hle : m ≤ 64
            · simp [hle]
            · rw [if_neg hle]
              exact hmin (m - 64) (by omega) (by omega)
      · obtain ⟨hk64, hkbit, hkmin⟩ :=
          get_first_set_bit_index64_spec w hw0 hw
        have haux : getFirstPendingAux (w :: ws) i =
            ((i * 64 + get_first_set_bit_index64 w + 1 : Nat) : Int) := by
          show (if w ≠ 0 then
                  Int.ofNat (i * NBITS + get_first_set_bit_index64 w + 1)
                else getFirstPendingAux ws (i + 1)) =
            ((i * 64 + get_first_set_bit_index64 w + 1 : Nat) : Int)
          rw [if_pos hw0]
          rfl
        constructor
        · constructor
          · intro h
            rw [haux] at h
            omega
          · intro h
            have h2 := h (get_first_set_bit_index64 w + 1) (by omega)
            rw [is_pending_sig_cons _ _ _ (by omega)] at h2
            rw [if_pos (show get_first_set_bit_index64 w + 1 ≤ 64 by
              omega)] at h2
            rw [Nat.add_sub_cancel] at h2
            rw [hkbit] at h2
            exact absurd h2 (by simp)
        · intro n hn
          rw [haux] at hn
          have hn' : n = i * 64 + get_first_set_bit_index64 w + 1 := by
            omega
          subst hn'
          refine ⟨by omega, ?_, ?_⟩
          · have he : i * 64 + get_first_set_bit_index64 w + 1 - i * 64 =
                get_first_set_bit_index64 w + 1 := by omega
            rw [he, is_pending_sig_cons _ _ _ (by omega)]
            rw [if_pos (show get_first_set_bit_index64 w + 1 ≤ 64 by
              omega)]
            rw [Nat.add_sub_cancel]
            exact hkbit
          · intro m hm1 hm2
            have hm2' : m < get_first_set_bit_index64 w + 1 := by omega
            rw [is_pending_sig_cons _ _ _ hm1]
            rw [if_pos (show m ≤ 64 by omega)]
            exact hkmin (m - 1) (by omega)

/-- Claim C6: for every pending bitmask (of 64-bit words),
get_first_pending_sig returns -1 exactly when no signal is pending, and
whenever it returns a (nonnegative) signal number n, n is pending and
every lower signal number is not pending — the lowest-numbered pending
signal is returned. -/
theorem first_pending_sig_lowest (ws : List Nat)
    (hbound : ∀ w ∈ ws, w < 2 ^ 64) :
    (get_first_pending_sig ws = -1 ↔
      ∀ s, 1 ≤ s → is_pending_sig ws s = false) ∧
    (∀ n : Nat, get_first_pending_sig ws = (n : Int) →
      1 ≤ n ∧
      is_pending_sig ws n = true ∧
      ∀ m, 1 ≤ m → m < n → is_pending_sig ws m = false) := by
  obtain ⟨h1, h2⟩ := getFirstPendingAux_spec ws 0 hbound
  refine ⟨h1, fun n hn => ?_⟩
  obtain ⟨hge, hpend, hmin⟩ := h2 n hn
  rw [Nat.zero_mul, Nat.sub_zero] at hpend hmin
  exact ⟨by omega, hpend, hmin⟩

/-- Witness for C6: on the two-word mask with bits for signals 4 and 65
set, the scan returns 4; on the empty mask it returns -1. -/
theorem first_pending_sig_lowest_witness :
    (get_first_pending_sig [0, 0] = -1 ↔
      ∀ s, 1 ≤ s → is_pending_sig [0, 0] s = false) ∧
    (is_pending_sig [8, 1] 4 = true ∧
      ∀ m, 1 ≤ m → m < 4 → is_pending_sig [8, 1] m = false) :=
  ⟨(first_pending_sig_lowest [0, 0] (by decide)).1,
   by
    have h := (first_pending_sig_lowest [8, 1] (by decide)).2 4 (by decide)
    exact ⟨h.2.1, h.2.2⟩⟩

/-
  ---------------------------------------------------------------
  C1 - a fault in the sigprocmask copy loop is not atomic
  ---------------------------------------------------------------
-/

/-- getD after set at a different index. -/
theorem getD_set_ne (l : List Nat) (a i v : Nat) (h : a ≠ i) :
    (l.set a v).getD i 0 = l.getD i 0 := by
  rw [List.getD_eq_getElem?_getD, List.getD_eq_getElem?_getD,
    List.getElem?_set_ne h]

/-- getD after set at the same (in-range) index. -/
theorem getD_set_self (l : List Nat) (a v : Nat) (h : a < l.length) :
    (l.set a v).getD a 0 = v := by
  rw [List.getD_eq_getElem?_getD, List.getElem?_set_eq_of_lt _ h]
  rfl

/-- One unfolding step of applyMaskWordsFrom. -/
theorem applyMaskWordsFrom_succ (how : Nat) (ws : List (Option Nat))
    (m : List Nat) (a k : Nat) :
    applyMaskWordsFrom how ws m a (k + 1) =
      applyMaskWordsFrom how ws
        (m.set a (applyMaskWord how (m.getD a 0)
          ((ws.getD a none).getD 0)))
        (a + 1) k := rfl

/-- Pointwise description of applyMaskWordsFrom: words in [a, a+k) carry
the update, all other words are untouched, and the length is preserved. -/
theorem applyMaskWordsFrom_spec (how : Nat) (ws : List (Option Nat)) :
    ∀ (k a : Nat) (m : List Nat), a + k ≤ m.length →
      (applyMaskWordsFrom how ws m a k).length = m.length ∧
      (∀ i, a ≤ i → i < a + k →
        (applyMaskWordsFrom how ws m a k).getD i 0 =
          applyMaskWord how (m.getD i 0) ((ws.getD i none).getD 0)) ∧
      (∀ i, (i < a ∨ a + k ≤ i) →
        (applyMaskWordsFrom how ws m a k).getD i 0 = m.getD i 0) := by
  intro k
  induction k with
  | zero =>
      intro a m _
      exact ⟨rfl, fun i h1 h2 => absurd h2 (by omega), fun i _ => rfl⟩
  | succ k ih =>
      intro a m hlen
      rw [applyMaskWordsFrom_succ]
      obtain ⟨ihlen, ih1, ih2⟩ := ih (a + 1)
        (m.set a (applyMaskWord how (m.getD a 0) ((ws.getD a none).getD 0)))
        (by rw [List.length_set]; omega)
      refine ⟨by rw [ihlen, List.length_set], ?_, ?_⟩
      · intro i h1 h2
        by_cases hia : i = a
        · subst hia
          rw [ih2 i (Or.inl (by omega))]
          exact getD_set_self m i _ (by omega)
        · rw [ih1 i (by omega) (by omega)]
          rw [getD_set_ne m a i _ (by omega)]
      · intro i hi
        have hi' : i < a + 1 ∨ a + 1 + k ≤ i := by omega
        rw [ih2 i hi', getD_set_ne m a i _ (by omega)]

/-- The copy/apply loop, when the user set faults at word j (and all
earlier words copy successfully), returns -EFAULT with exactly the words
before j already applied. -/
theorem sigprocmaskLoop_fault (how : Nat) (ws : List (Option Nat))
    (hhow : how = SIG_BLOCK ∨ how = SIG_UNBLOCK ∨ how = SIG_SETMASK) :
    ∀ (k a j : Nat) (m : List Nat),
      a + k = m.length →
      a ≤ j → j < m.length →
      ws.getD j none = none →
      (∀ i, a ≤ i → i < j → (ws.getD i none).isSome = true) →
      sigprocmaskLoop how ws m a k =
        (-EFAULT, applyMaskWordsFrom how ws m a (j - a)) := by
  intro k
  induction k with
  | zero =>
      intro a j m hlen haj hjlen _ _
      exact absurd hjlen (by omega)
  | succ k ih =>
      intro a j m hlen haj hjlen hfault hpre
      by_cases haj' : a = j
      · subst haj'
        have hstep : sigprocmaskLoop how ws m a (k + 1) = (-EFAULT, m) := by
          simp only [sigprocmaskLoop]
          rw [hfault]
        rw [hstep, Nat.sub_self]
        rfl
      · have hlt : a < j := by omega
        obtain ⟨w, hw⟩ : ∃ w, ws.getD a none = some w := by
          have h := hpre a (le_refl a) hlt
          cases hws : ws.getD a none with
          | none => rw [hws] at h; simp at h
          | some w => exact ⟨w, rfl⟩
        have hja : j - a = (j - (a + 1)) + 1 := by omega
        rcases hhow with h0 | h0 | h0 <;> subst h0
        · have hstep : sigprocmaskLoop SIG_BLOCK ws m a (k + 1) =
              sigprocmaskLoop SIG_BLOCK ws
                (m.set a (m.getD a 0 ||| w)) (a + 1) k := by
            simp only [sigprocmaskLoop]
            rw [hw]
            simp [SIG_BLOCK]
          rw [hstep,
            ih (a + 1) j _ (by rw [List.length_set]; omega) (by omega)
              (by rw [List.length_set]; omega) hfault
              (fun i h1 h2 => hpre i (by omega) h2),
            hja, applyMaskWordsFrom_succ]
          have hw2 : ws[a]?.getD none = some w := by rw [← List.getD_eq_getElem?_getD]; exact hw
          simp [applyMaskWord, SIG_BLOCK, hw2]
        · have hstep : sigprocmaskLoop SIG_UNBLOCK ws m a (k + 1) =
              sigprocmaskLoop SIG_UNBLOCK ws
                (m.set a (Nat.ldiff (m.getD a 0) w)) (a + 1) k := by
            simp only [sigprocmaskLoop]
            rw [hw]
            simp [SIG_BLOCK, SIG_UNBLOCK]
          rw [hstep,
            ih (a + 1) j _ (by rw [List.length_set]; omega) (by omega)
              (by rw [List.length_set]; omega) hfault
              (fun i h1 h2 => hpre i (by omega) h2),
            hja, applyMaskWordsFrom_succ]
          have hw2 : ws[a]?.getD none = some w := by rw [← List.getD_eq_getElem?_getD]; exact hw
          simp [applyMaskWord, SIG_BLOCK, SIG_UNBLOCK, hw2]
        · have hstep : sigprocmaskLoop SIG_SETMASK ws m a (k + 1) =
              sigprocmaskLoop SIG_SETMASK ws
                (m.set a w) (a + 1) k := by
            simp only [sigprocmaskLoop]
            rw [hw]
            simp [SIG_BLOCK, SIG_UNBLOCK, SIG_SETMASK]
          rw [hstep,
            ih (a + 1) j _ (by rw [List.length_set]; omega) (by omega)
              (by rw [List.length_set]; omega) hfault
              (fun i h1 h2 => hpre i (by omega) h2),
            hja, applyMaskWordsFrom_succ]
          have hw2 : ws[a]?.getD none = some w := by rw [← List.getD_eq_getElem?_getD]; exact hw
          simp [applyMaskWord, SIG_BLOCK, SIG_UNBLOCK, SIG_SETMASK, hw2]

/-- Counterexample to claim C1 as stated: a SIG_SETMASK call on a two-word
mask whose second word faults returns the fault error code but leaves the
first word of the new mask applied — the blocked mask is not "exactly as
it was before the call". -/
theorem sigprocmask_fault_not_atomic_cex :
    (sys_rt_sigprocmask SIG_SETMASK (some [some 5, none]) false false
      [0, 0]).fst = -EFAULT ∧
    (sys_rt_sigprocmask SIG_SETMASK (some [some 5, none]) false false
      [0, 0]).snd = [5, 0] ∧
    ([5, 0] : List Nat) ≠ [0, 0] := by decide

/-- Claim C1 (amended): with a valid mode and a non-null new-set pointer,
if copying word j of the user mask faults after words 0..j-1 copied
successfully, the call returns -EFAULT; the words before j have already
had the update applied, the words at or after j are unchanged, and the
mask is left exactly as before only when the very first word faults. -/
theorem sigprocmask_fault_applies_prefix (how : Nat)
    (ws : List (Option Nat)) (mask : List Nat) (j : Nat)
    (hhow : how = SIG_BLOCK ∨ how = SIG_UNBLOCK ∨ how = SIG_SETMASK)
    (hj : j < mask.length)
    (hfault : ws.getD j none = none)
    (hpre : ∀ i, i < j → (ws.getD i none).isSome = true) :
    (sys_rt_sigprocmask how (some ws) false false mask).fst = -EFAULT ∧
    (∀ i, i < j →
      (sys_rt_sigprocmask how (some ws) false false mask).snd.getD i 0 =
        applyMaskWord how (mask.getD i 0) ((ws.getD i none).getD 0)) ∧
    (∀ i, j ≤ i →
      (sys_rt_sigprocmask how (some ws) false false mask).snd.getD i 0 =
        mask.getD i 0) ∧
    (j = 0 → (sys_rt_sigprocmask how (some ws) false false mask).snd = mask) := by
  have hcall : sys_rt_sigprocmask how (some ws) false false mask =
      sigprocmaskLoop how ws mask 0 mask.length := by
    simp [sys_rt_sigprocmask]
  have hloop := sigprocmaskLoop_fault how ws hhow mask.length 0 j mask
    (by omega) (by omega) hj hfault (fun i _ h2 => hpre i h2)
  rw [Nat.sub_zero] at hloop
  rw [hcall, hloop]
  obtain ⟨hlen, h1, h2⟩ := applyMaskWordsFrom_spec how ws j 0 mask (by omega)
  refine ⟨rfl, ?_, ?_, ?_⟩
  · intro i hi
    exact h1 i (by omega) (by omega)
  · intro i hi
    exact h2 i (Or.inr (by omega))
  · intro hj0
    subst hj0
    rfl

/-- Witness for the amended C1: mode SIG_SETMASK, two-word mask, fault on
word 1 — the call returns -EFAULT, word 0 carries the new value 5, word 1
keeps its old value 0. -/
theorem sigprocmask_fault_applies_prefix_witness :
    (sys_rt_sigprocmask SIG_SETMASK (some [some 5, none]) false false
      [0, 0]).fst = -EFAULT ∧
    (sys_rt_sigprocmask SIG_SETMASK (some [some 5, none]) false false
      [0, 0]).snd.getD 0 0 = applyMaskWord SIG_SETMASK 0 5 ∧
    (sys_rt_sigprocmask SIG_SETMASK (some [some 5, none]) false false
      [0, 0]).snd.getD 1 0 = 0 := by
  have h := sigprocmask_fault_applies_prefix SIG_SETMASK [some 5, none]
    [0, 0] 1 (Or.inr (Or.inr rfl)) (by decide) (by decide)
    (fun i hi => by
      have hi0 : i = 0 := by omega
      subst hi0
      decide)
  exact ⟨h.1, h.2.1 0 (by decide), h.2.2.1 1 (by decide)⟩

